import Mathlib

/-!
# Verification of the CubejsServerCore composition root

Shallow embedding of `src/packages/cubejs-server-core/core/index.js`:
configuration resolution and validation, the placeholder-credential check,
the lazy driver cache (`getDriver`), the dev-server endpoints, the
best-effort telemetry emitter, and the uncaught-exception supervisor.
Asynchronous code is modelled by explicit state passing; where interleaving
matters (`getDriver` under concurrency, the exception supervisor) the code
is split at its `await` points into atomic steps driven by a schedule.
-/

namespace CubeCore

/-- Errors surfaced by the core.  `configError` is the
`driverFactory, apiSecret, dbType are required options` error,
`placeholderError` the placeholder-credential error; `other` stands for
errors thrown by collaborators (driver factory, connection test, sinks). -/
inductive CoreError
  | configError
  | placeholderError
  | other (msg : String)
deriving DecidableEq, Repr

/-- A driver instance.  Instances are distinguished by a creation tag so
that "identical cached instance" is expressible. -/
structure Driver where
  id : Nat
deriving DecidableEq, Repr

/-! ## DriverLifecycleManager: `getDriver` (index.js lines 199–206)

```js
async getDriver() {
  if (!this.driver) {
    const driver = this.driverFactory();
    await driver.testConnection(); // TODO mutex
    this.driver = driver;
  }
  return this.driver;
}
```

The factory and the connection test are external, fallible collaborators;
they are modelled as oracles: `factory n` is the outcome of the `n`-th
invocation of `this.driverFactory()`, `test d` the outcome of
`d.testConnection()`. -/

/-- Oracles for the fallible collaborators of `getDriver`. -/
structure DriverEnv where
  factory : Nat → Except CoreError Driver
  test : Driver → Except CoreError Unit

/-- The mutable state touched by `getDriver`: the cached `this.driver`,
plus instrumentation counting how often each collaborator was invoked. -/
structure DriverState where
  driver : Option Driver
  factoryCalls : Nat
  testCalls : Nat
deriving DecidableEq, Repr

def initialDriverState : DriverState :=
  { driver := none, factoryCalls := 0, testCalls := 0 }

/-- One sequential (uninterleaved) call to `getDriver`, returning the
call's outcome and the state after the call. -/
def getDriver (env : DriverEnv) (s : DriverState) :
    Except CoreError Driver × DriverState :=
  match s.driver with
  | some d => (Except.ok d, s)
  | none =>
    match env.factory s.factoryCalls with
    | Except.error e =>
      (Except.error e, { s with factoryCalls := s.factoryCalls + 1 })
    | Except.ok d =>
      match env.test d with
      | Except.error e =>
        (Except.error e,
          { s with factoryCalls := s.factoryCalls + 1,
                   testCalls := s.testCalls + 1 })
      | Except.ok _ =>
        (Except.ok d,
          { driver := some d, factoryCalls := s.factoryCalls + 1,
            testCalls := s.testCalls + 1 })

/-- Claim C1: starting with an empty cache, if the factory's first
invocation yields `d` and `d`'s connection test succeeds, then two
sequential `getDriver` calls both return that same instance `d`, the
factory and the connection test are each invoked exactly once over the two
calls, and — in general, for every environment and state — the cache is
only ever written with an instance whose connection test succeeded. -/
theorem getDriver_sequential_twice (env : DriverEnv) (d : Driver)
    (hf : env.factory 0 = Except.ok d) (ht : env.test d = Except.ok ()) :
    (getDriver env initialDriverState).1 = Except.ok d ∧
    (getDriver env (getDriver env initialDriverState).2).1 = Except.ok d ∧
    (getDriver env (getDriver env initialDriverState).2).2.factoryCalls = 1 ∧
    (getDriver env (getDriver env initialDriverState).2).2.testCalls = 1 ∧
    (getDriver env (getDriver env initialDriverState).2).2.driver = some d ∧
    (∀ (env2 : DriverEnv) (s : DriverState) (d2 : Driver),
      (getDriver env2 s).2.driver = some d2 →
      s.driver = some d2 ∨ env2.test d2 = Except.ok ()) := by
  refine ⟨?_, ?_, ?_, ?_, ?_, ?_⟩
  · simp [getDriver, initialDriverState, hf, ht]
  · simp [getDriver, initialDriverState, hf, ht]
  · simp [getDriver, initialDriverState, hf, ht]
  · simp [getDriver, initialDriverState, hf, ht]
  · simp [getDriver, initialDriverState, hf, ht]
  · intro env2 s d2 h
    match hs : s.driver with
    | some d0 =>
      left
      simpa [getDriver, hs] using h
    | none =>
      right
      match hf2 : env2.factory s.factoryCalls with
      | Except.error e => simp [getDriver, hs, hf2] at h
      | Except.ok d0 =>
        match ht2 : env2.test d0 with
        | Except.error e => simp [getDriver, hs, hf2, ht2] at h
        | Except.ok _ =>
          simp [getDriver, hs, hf2, ht2] at h
          cases h
          simpa using ht2

/-- Environment used to instantiate the sequential `getDriver` theorems. -/
def okEnv : DriverEnv :=
  { factory := fun _ => Except.ok { id := 0 },
    test := fun _ => Except.ok () }

/-- Witness for C1 at the concrete environment `okEnv`. -/
theorem getDriver_sequential_twice_witness :
    (getDriver okEnv initialDriverState).1 = Except.ok { id := 0 } ∧
    (getDriver okEnv (getDriver okEnv initialDriverState).2).1 =
      Except.ok { id := 0 } ∧
    (getDriver okEnv (getDriver okEnv initialDriverState).2).2.factoryCalls = 1 ∧
    (getDriver okEnv (getDriver okEnv initialDriverState).2).2.testCalls = 1 ∧
    (getDriver okEnv (getDriver okEnv initialDriverState).2).2.driver =
      some { id := 0 } ∧
    (∀ (env2 : DriverEnv) (s : DriverState) (d2 : Driver),
      (getDriver env2 s).2.driver = some d2 →
      s.driver = some d2 ∨ env2.test d2 = Except.ok ()) :=
  getDriver_sequential_twice okEnv { id := 0 } rfl rfl

/-- Claim C2: if the cache is empty and either the factory throws or the
constructed driver's connection test rejects, the error propagates to the
caller of `getDriver` and the cache stays empty; a subsequent call then
invokes the factory (and, when it yields a driver that tests fine, the
connection test) again from scratch and caches the new instance. -/
theorem getDriver_failure_not_cached (env : DriverEnv) (s : DriverState)
    (e : CoreError) (hs : s.driver = none)
    (hfail : env.factory s.factoryCalls = Except.error e ∨
      ∃ d, env.factory s.factoryCalls = Except.ok d ∧
        env.test d = Except.error e) :
    (getDriver env s).1 = Except.error e ∧
    (getDriver env s).2.driver = none ∧
    (∀ d, env.factory (getDriver env s).2.factoryCalls = Except.ok d →
      env.test d = Except.ok () →
      (getDriver env (getDriver env s).2).1 = Except.ok d ∧
      (getDriver env (getDriver env s).2).2.driver = some d ∧
      (getDriver env (getDriver env s).2).2.factoryCalls =
        s.factoryCalls + 2) := by
  have hstep : (getDriver env s).1 = Except.error e ∧
      (getDriver env s).2.driver = none ∧
      (getDriver env s).2.factoryCalls = s.factoryCalls + 1 := by
    rcases hfail with hf | ⟨d, hf, ht⟩
    · refine ⟨?_, ?_, ?_⟩ <;> simp [getDriver, hs, hf]
    · refine ⟨?_, ?_, ?_⟩ <;> simp [getDriver, hs, hf, ht]
  obtain ⟨h1, h2, h3⟩ := hstep
  refine ⟨h1, h2, ?_⟩
  intro d hf2 ht2
  rw [h3] at hf2
  generalize hS : (getDriver env s).2 = s2 at h2 h3 ⊢
  refine ⟨?_, ?_, ?_⟩ <;> simp [getDriver, h2, h3, hf2, ht2]

/-- Environment in which the first factory invocation throws and the
second succeeds with a driver that passes its connection test. -/
def retryEnv : DriverEnv :=
  { factory := fun n =>
      if n = 0 then Except.error (CoreError.other "boom")
      else Except.ok { id := 7 },
    test := fun _ => Except.ok () }

/-- Witness for C2: with `retryEnv`, the first call fails and caches
nothing, and the second call succeeds from scratch. -/
theorem getDriver_failure_not_cached_witness :
    (getDriver retryEnv initialDriverState).1 =
      Except.error (CoreError.other "boom") ∧
    (getDriver retryEnv initialDriverState).2.driver = none ∧
    (getDriver retryEnv (getDriver retryEnv initialDriverState).2).1 =
      Except.ok { id := 7 } ∧
    (getDriver retryEnv (getDriver retryEnv initialDriverState).2).2.driver =
      some { id := 7 } := by
  have h := getDriver_failure_not_cached retryEnv initialDriverState
    (CoreError.other "boom") rfl (Or.inl rfl)
  obtain ⟨h1, h2, h3⟩ := h
  have h4 := h3 { id := 7 } rfl rfl
  exact ⟨h1, h2, h4.1, h4.2.1⟩

/-! ## `getDriver` under concurrency (the `// TODO mutex` race)

Each in-flight `getDriver` call has one `await` point (the connection
test), so a call is two atomic steps:

* step 1 — `if (!this.driver)`: with an empty cache, call the factory and
  start `testConnection()`; with a full cache, return the cached instance;
* step 2 — the connection test resolves: `this.driver = driver; return`.

Two concurrent calls (`false` and `true`) are driven by a schedule of four
step slots; the n-th occurrence of a call in the schedule runs its n-th
step.  Call `t` constructs its own instance `driverOf t`. -/

/-- The driver instance constructed by call `t`. -/
def driverOf (t : Bool) : Driver := { id := cond t 1 0 }

/-- Where an in-flight `getDriver` call stands: before its cache check,
awaiting its connection test, or returned with a result. -/
inductive CallPhase
  | start
  | testing (d : Driver)
  | finished (d : Driver)
deriving DecidableEq, Repr

/-- Shared cache plus each call's phase and collaborator-invocation
counts, for two interleaved `getDriver` calls. -/
structure RaceState where
  cache : Option Driver
  phaseA : CallPhase
  phaseB : CallPhase
  factoryCalls : Nat
  testCalls : Nat
deriving DecidableEq, Repr

def phaseOf (s : RaceState) (t : Bool) : CallPhase :=
  cond t s.phaseB s.phaseA

def setPhase (s : RaceState) (t : Bool) (p : CallPhase) : RaceState :=
  cond t { s with phaseB := p } { s with phaseA := p }

def raceInit : RaceState :=
  { cache := none, phaseA := CallPhase.start, phaseB := CallPhase.start,
    factoryCalls := 0, testCalls := 0 }

/-- One atomic step of call `t`, as dictated by its phase. -/
def raceStep (s : RaceState) (t : Bool) : RaceState :=
  match phaseOf s t with
  | CallPhase.start =>
    match s.cache with
    | some d => setPhase s t (CallPhase.finished d)
    | none =>
      let s1 := { s with factoryCalls := s.factoryCalls + 1,
                         testCalls := s.testCalls + 1 }
      setPhase s1 t (CallPhase.testing (driverOf t))
  | CallPhase.testing d =>
    setPhase { s with cache := some d } t (CallPhase.finished d)
  | CallPhase.finished _ => s

/-- Run both calls under a four-slot schedule. -/
def raceRun (sched : Fin 4 → Bool) : RaceState :=
  (List.ofFn sched).foldl raceStep raceInit

/-- Claim C3: under every schedule in which both calls perform their cache
check before either connection test resolves (each call takes two slots,
and the two opening slots belong to distinct calls), the factory and the
connection test each run twice, both calls return the instance they
themselves constructed, the cache ends up holding the instance assigned
last (the one belonging to the call scheduled in the final slot), and the
other instance is not cached. -/
theorem getDriver_race_double_construction (sched : Fin 4 → Bool)
    (hcount : (List.ofFn sched).count true = 2)
    (hboth : sched 0 ≠ sched 1) :
    (raceRun sched).factoryCalls = 2 ∧
    (raceRun sched).testCalls = 2 ∧
    (raceRun sched).cache = some (driverOf (sched 3)) ∧
    (raceRun sched).cache ≠ some (driverOf (!(sched 3))) ∧
    phaseOf (raceRun sched) (sched 3) =
      CallPhase.finished (driverOf (sched 3)) ∧
    phaseOf (raceRun sched) (!(sched 3)) =
      CallPhase.finished (driverOf (!(sched 3))) := by
  revert hcount hboth
  revert sched
  decide

/-- Schedule: both calls check the cache, then call `false` assigns, then
call `true` assigns last. -/
def schedW : Fin 4 → Bool := ![false, true, false, true]

/-- Witness for C3 at the concrete schedule `schedW`. -/
theorem getDriver_race_double_construction_witness :
    (raceRun schedW).factoryCalls = 2 ∧
    (raceRun schedW).cache = some (driverOf (schedW 3)) :=
  ⟨(getDriver_race_double_construction schedW (by decide) (by decide)).1,
   (getDriver_race_double_construction schedW (by decide)
      (by decide)).2.2.1⟩

/-! ## The uncaught-exception supervisor (index.js lines 92–112)

```js
let causeErrorPromise;
process.on('uncaughtException', async (e) => {
  console.error(e.stack || e);
  ... redis remediation guidance ...
  if (!causeErrorPromise) {
    causeErrorPromise = this.event('Dev Server Fatal Error', {...});
  }
  await causeErrorPromise;
  process.exit(1);
});
```

The handler's synchronous prologue (up to and including the
check-and-assign of `causeErrorPromise`) runs atomically on the event
loop; the only suspension point is `await causeErrorPromise`.  So a run is
a sequence of three kinds of atomic events: an exception arrives and its
handler prologue runs (`raiseExc`, which issues the telemetry report only
when no report is pending), the pending report settles (`settleReport`),
and a suspended handler resumes past its `await` and calls
`process.exit(1)` (`resumeHandler`, enabled only once the report has
settled). -/

inductive SupAction
  | raiseExc
  | settleReport
  | resumeHandler
deriving DecidableEq, Repr

/-- Supervisor state: whether `causeErrorPromise` has been assigned,
whether it has settled, how many fatal-error telemetry events were
issued, and the process exit status if `process.exit` ran. -/
structure SupState where
  pending : Bool
  settled : Bool
  events : Nat
  exitCode : Option Nat
deriving DecidableEq, Repr

def supInit : SupState :=
  { pending := false, settled := false, events := 0, exitCode := none }

def supStep (s : SupState) : SupAction → SupState
  | SupAction.raiseExc =>
    if s.pending then s
    else { s with pending := true, events := s.events + 1 }
  | SupAction.settleReport =>
    if s.pending then { s with settled := true } else s
  | SupAction.resumeHandler =>
    if s.settled then { s with exitCode := some 1 } else s

def supRun (trace : List SupAction) : SupState :=
  trace.foldl supStep supInit

/-- Invariant tying the event count to the pending report and the exit to
the report having settled. -/
def SupInv (s : SupState) : Prop :=
  s.events = (if s.pending then 1 else 0) ∧
  (s.settled = true → s.pending = true) ∧
  (s.exitCode ≠ none → s.settled = true) ∧
  (s.exitCode = none ∨ s.exitCode = some 1)

theorem supStep_inv (s : SupState) (a : SupAction) (h : SupInv s) :
    SupInv (supStep s a) := by
  obtain ⟨h1, h2, h3, h4⟩ := h
  cases a with
  | raiseExc =>
    by_cases hp : s.pending
    · simpa [supStep, hp] using ⟨h1, h2, h3, h4⟩
    · simp only [supStep]
      rw [if_neg hp]
      exact ⟨by simp [h1, hp], by simp, h3, h4⟩
  | settleReport =>
    by_cases hp : s.pending
    · simp only [supStep]
      rw [if_pos hp]
      exact ⟨h1, fun _ => hp, fun _ => rfl, h4⟩
    · simpa [supStep, hp] using ⟨h1, h2, h3, h4⟩
  | resumeHandler =>
    by_cases hs : s.settled
    · simp only [supStep]
      rw [if_pos hs]
      exact ⟨h1, h2, fun _ => hs, Or.inr rfl⟩
    · simpa [supStep, hs] using ⟨h1, h2, h3, h4⟩

theorem supFold_inv (trace : List SupAction) (s : SupState) (h : SupInv s) :
    SupInv (trace.foldl supStep s) := by
  induction trace generalizing s with
  | nil => exact h
  | cons a tl ih => exact ih _ (supStep_inv s a h)

theorem supStep_pending_mono (s : SupState) (a : SupAction)
    (h : s.pending = true) : (supStep s a).pending = true := by
  cases a with
  | raiseExc => simp [supStep, h]
  | settleReport => simp [supStep, h]
  | resumeHandler => by_cases hs : s.settled <;> simp [supStep, hs, h]

theorem supFold_pending (trace : List SupAction) (s : SupState)
    (h : SupAction.raiseExc ∈ trace ∨ s.pending = true) :
    (trace.foldl supStep s).pending = true := by
  induction trace generalizing s with
  | nil =>
    rcases h with h | h
    · simp at h
    · simpa using h
  | cons a tl ih =>
    simp only [List.foldl_cons]
    rcases h with h | h
    · rcases List.mem_cons.mp h with h | h
      · subst h
        refine ih _ (Or.inr ?_)
        by_cases hp : s.pending <;> simp [supStep, hp]
      · exact ih _ (Or.inl h)
    · exact ih _ (Or.inr (supStep_pending_mono s a h))

/-- Claim C4: along every sequence of supervisor events, at most one
fatal-error telemetry report is ever issued; as soon as at least one
uncaught exception arrived, exactly one report was issued (later
exceptions reuse the pending report); and the process exits with status 1
(non-zero) only once that single report has settled. -/
theorem supervisor_single_report (trace : List SupAction) :
    (supRun trace).events ≤ 1 ∧
    (SupAction.raiseExc ∈ trace → (supRun trace).events = 1) ∧
    (∀ c, (supRun trace).exitCode = some c →
      (supRun trace).settled = true ∧ c ≠ 0) := by
  have hinv : SupInv (supRun trace) :=
    supFold_inv trace supInit ⟨by simp [supInit], by simp [supInit],
      by simp [supInit], by simp [supInit]⟩
  obtain ⟨h1, h2, h3, h4⟩ := hinv
  refine ⟨?_, ?_, ?_⟩
  · rw [h1]; split <;> simp
  · intro hmem
    have hp : (supRun trace).pending = true :=
      supFold_pending trace supInit (Or.inl hmem)
    rw [h1, hp]
    simp
  · intro c hc
    refine ⟨h3 (by simp [hc]), ?_⟩
    rcases h4 with h4 | h4
    · rw [h4] at hc; cases hc
    · rw [h4] at hc
      have : (1 : Nat) = c := Option.some.inj hc
      omega

/-- Two exceptions in rapid succession, then the report settles, then
both suspended handlers resume. -/
def supTraceW : List SupAction :=
  [SupAction.raiseExc, SupAction.raiseExc, SupAction.settleReport,
   SupAction.resumeHandler, SupAction.resumeHandler]

/-- Witness for C4 at the concrete trace `supTraceW`. -/
theorem supervisor_single_report_witness :
    (supRun supTraceW).events = 1 ∧
    ((supRun supTraceW).settled = true ∧ (1 : Nat) ≠ 0) :=
  ⟨(supervisor_single_report supTraceW).2.1 (by decide),
   (supervisor_single_report supTraceW).2.2 1 (by decide)⟩

/-! ## Environment, placeholder check, driver selection -/

/-- `process.env` plus the machine-derived id returned by
`machineIdSync()`. -/
structure Env where
  vars : String → Option String
  machineId : String

/-- JS truthiness of a string-valued expression: `undefined` and the
empty string are falsy. -/
def truthyStr : Option String → Bool
  | none => false
  | some s => s != ""

/-- JS `a || b` for string-valued expressions. -/
def jsOrStr (a b : Option String) : Option String :=
  if truthyStr a then a else b

/-- `checkEnvForPlaceholders` (index.js lines 17–32). -/
def placeholderSubstr : String := "<YOUR_DB_"

def credentials : List String :=
  ["CUBEJS_DB_HOST", "CUBEJS_DB_NAME", "CUBEJS_DB_USER", "CUBEJS_DB_PASS"]

/-- `v.indexOf(placeholderSubstr) === 0`: `v` begins with the marker. -/
def beginsWithMarker (v : String) : Bool :=
  placeholderSubstr.data.isPrefixOf v.data

/-- `process.env[credential] && process.env[credential].indexOf(...) === 0`
for one credential variable. -/
def hasPlaceholder (env : Env) (credential : String) : Bool :=
  match env.vars credential with
  | none => false
  | some v => (v != "") && beginsWithMarker v

def checkEnvForPlaceholders (env : Env) : Except CoreError Unit :=
  if credentials.any (hasPlaceholder env) then
    Except.error CoreError.placeholderError
  else Except.ok ()

/-- The `DriverDependencies` table (index.js lines 9–15). -/
def DriverDependencies : List (String × String) :=
  [("postgres", "@cubejs-backend/postgres-driver"),
   ("mysql", "@cubejs-backend/mysql-driver"),
   ("athena", "@cubejs-backend/athena-driver"),
   ("jdbc", "@cubejs-backend/jdbc-driver"),
   ("mongobi", "@cubejs-backend/mongobi-driver")]

def knownDbTypes : List String := DriverDependencies.map Prod.fst

/-- The property names every plain object literal inherits from
`Object.prototype`; reading them off `DriverDependencies` yields a truthy
inherited value (a function, or for `__proto__` the prototype object),
not `undefined`. -/
def objectProtoKeys : List String :=
  ["constructor", "hasOwnProperty", "isPrototypeOf", "propertyIsEnumerable",
   "toLocaleString", "toString", "valueOf", "__defineGetter__",
   "__defineSetter__", "__lookupGetter__", "__lookupSetter__", "__proto__"]

/-- What `DriverDependencies[t] || DriverDependencies.jdbc` can produce:
one of the table's own module-name strings, or a truthy member inherited
from `Object.prototype`. -/
inductive DriverDependency
  | module (name : String)
  | protoMember (name : String)
deriving DecidableEq, Repr

/-- `DriverDependencies[t]` with JS property-lookup semantics: the
object's own keys first, then the inherited `Object.prototype` members,
else `undefined` (`none`). -/
def driverDependenciesLookup (t : String) : Option DriverDependency :=
  match DriverDependencies.lookup t with
  | some m => some (DriverDependency.module m)
  | none =>
    if t ∈ objectProtoKeys then some (DriverDependency.protoMember t)
    else none

/-- `driverDependencies(dbType)` (index.js lines 214–216):
`DriverDependencies[dbType] || DriverDependencies.jdbc`.  Every value the
bracket lookup can produce is truthy, so `||` falls back to the JDBC
dependency only when the lookup gave `undefined`. -/
def driverDependencies (dbType : Option String) : DriverDependency :=
  match dbType with
  | none => DriverDependency.module "@cubejs-backend/jdbc-driver"
  | some t =>
    (driverDependenciesLookup t).getD
      (DriverDependency.module "@cubejs-backend/jdbc-driver")

/-- `createDriver(dbType)` (index.js lines 208–212): re-check placeholder
credentials, then `new (require(driverDependencies(dbType ||
process.env.CUBEJS_DB_TYPE)))()`.  A constructed driver is represented by
the name of its module; when the lookup produced an inherited
`Object.prototype` member, `require` receives a function or object
instead of a module id and throws. -/
def createDriver (env : Env) (dbType : Option String) :
    Except CoreError String :=
  match checkEnvForPlaceholders env with
  | Except.error e => Except.error e
  | Except.ok _ =>
    match driverDependencies (jsOrStr dbType (env.vars "CUBEJS_DB_TYPE")) with
    | DriverDependency.module m => Except.ok m
    | DriverDependency.protoMember name =>
      Except.error (CoreError.other ("require cannot load " ++ name))

/-! ## The constructor (index.js lines 35–113) -/

/-- A driver-factory value: either a caller-supplied function or the
defaulted `() => CubejsServerCore.createDriver(options.dbType)` closure.
Any function value is truthy. -/
inductive FactoryTag
  | custom (id : Nat)
  | defaultFactory
deriving DecidableEq, Repr

/-- Caller-supplied options.  Each field is `none` when the key is absent
and `some v` when the key is present holding `v`; a present key holding
`undefined` is `some none` (under JS spread it still overrides the
default). -/
structure RawOptions where
  driverFactory : Option (Option FactoryTag) := none
  apiSecret : Option (Option String) := none
  dbType : Option (Option String) := none
  devServer : Option (Option Bool) := none
  schemaPath : Option (Option String) := none

/-- One field of `{ ...defaults, ...options }`: a key present in the
caller's options (whatever it holds) overrides the default. -/
def resolveField (given : Option (Option α)) (dflt : Option α) : Option α :=
  match given with
  | none => dflt
  | some v => v

/-- The fields the constructor assigns onto `this`. -/
structure ResolvedCore where
  driverFactory : FactoryTag
  apiSecret : String
  dbType : String
  schemaPath : String
  devServer : Bool
  anonymousId : Option String
deriving Repr

/-- Side effects of the constructor's dev-server branch. -/
inductive CtorEffect
  | createAnalyticsClient
  | readMachineId
  | installUncaughtHandler
deriving DecidableEq, Repr

/-- The `CubejsServerCore` constructor: merge environment-derived
defaults with the caller's options (caller keys win), fail with
`configError` unless `driverFactory`, `apiSecret` and `dbType` are all
truthy, then assign the resolved fields and, in dev mode, set up the
analytics client, the machine id and the uncaught-exception handler. -/
def construct (env : Env) (raw : RawOptions) :
    Except CoreError ResolvedCore × List CtorEffect :=
  match resolveField raw.driverFactory (some FactoryTag.defaultFactory),
        resolveField raw.apiSecret (env.vars "CUBEJS_API_SECRET"),
        resolveField raw.dbType (env.vars "CUBEJS_DB_TYPE") with
  | some df, some secret, some dbt =>
    if secret == "" || dbt == "" then (Except.error CoreError.configError, [])
    else
      let devServer := resolveField raw.devServer
          (some (env.vars "NODE_ENV" != some "production")) == some true
      (Except.ok
        { driverFactory := df, apiSecret := secret, dbType := dbt,
          schemaPath :=
            match resolveField raw.schemaPath none with
            | some p => if p == "" then "schema" else p
            | none => "schema",
          devServer := devServer,
          anonymousId := if devServer then some env.machineId else none },
       if devServer then
         [CtorEffect.createAnalyticsClient, CtorEffect.readMachineId,
          CtorEffect.installUncaughtHandler]
       else [])
  | _, _, _ => (Except.error CoreError.configError, [])

/-- Effects of `initApp` beyond the placeholder re-check. -/
inductive InitEffect
  | createCompilerApi
  | createOrchestratorApi
  | createApiGateway
  | gatewayInitApp
  | initDevEnv
deriving DecidableEq, Repr

/-- `initApp(app)` (index.js lines 119–137): re-check placeholder
credentials, then build the compiler and orchestrator collaborators and
the gateway, register the gateway's routes, and in dev mode install the
playground endpoints. -/
def initApp (env : Env) (core : ResolvedCore) :
    Except CoreError (List InitEffect) :=
  match checkEnvForPlaceholders env with
  | Except.error e => Except.error e
  | Except.ok _ =>
    Except.ok
      ([InitEffect.createCompilerApi, InitEffect.createOrchestratorApi,
        InitEffect.createApiGateway, InitEffect.gatewayInitApp] ++
       if core.devServer then [InitEffect.initDevEnv] else [])

/-- Claim C5: whenever, after the environment-derived defaults are
merged, the driver-factory, the API secret or the backing-store type is
missing, the constructor fails with the configuration error and performs
no side effects. -/
theorem construct_missing_required_configError (env : Env) (raw : RawOptions)
    (h : resolveField raw.driverFactory (some FactoryTag.defaultFactory) = none ∨
      resolveField raw.apiSecret (env.vars "CUBEJS_API_SECRET") = none ∨
      resolveField raw.dbType (env.vars "CUBEJS_DB_TYPE") = none) :
    construct env raw = (Except.error CoreError.configError, []) := by
  unfold construct
  cases hdf : resolveField raw.driverFactory (some FactoryTag.defaultFactory) <;>
    cases hsec : resolveField raw.apiSecret (env.vars "CUBEJS_API_SECRET") <;>
      cases hdb : resolveField raw.dbType (env.vars "CUBEJS_DB_TYPE") <;>
        simp_all

/-- An environment with no variables set. -/
def envEmpty : Env := { vars := fun _ => none, machineId := "machine" }

/-- Witness for C5: with an empty environment and no caller options, the
API secret is missing and construction fails with the config error. -/
theorem construct_missing_required_configError_witness :
    construct envEmpty {} = (Except.error CoreError.configError, []) :=
  construct_missing_required_configError envEmpty {} (Or.inr (Or.inl rfl))

/-- Claim C6: if some credential environment variable holds a value that
begins with the placeholder marker, the placeholder check fails, and both
process composition (`initApp`) and default driver construction
(`createDriver`) raise that placeholder error. -/
theorem placeholder_check_raises (env : Env) (c v : String)
    (hc : c ∈ credentials) (hv : env.vars c = some v)
    (hm : beginsWithMarker v = true) :
    checkEnvForPlaceholders env = Except.error CoreError.placeholderError ∧
    (∀ core : ResolvedCore,
      initApp env core = Except.error CoreError.placeholderError) ∧
    (∀ dbType : Option String,
      createDriver env dbType = Except.error CoreError.placeholderError) := by
  have hne : v ≠ "" := by
    intro h0
    rw [h0] at hm
    exact absurd hm (by decide)
  have hp : hasPlaceholder env c = true := by
    simp [hasPlaceholder, hv, hm, hne]
  have hany : credentials.any (hasPlaceholder env) = true :=
    List.any_eq_true.mpr ⟨c, hc, hp⟩
  have hcheck : checkEnvForPlaceholders env =
      Except.error CoreError.placeholderError := by
    simp [checkEnvForPlaceholders, hany]
  refine ⟨hcheck, ?_, ?_⟩
  · intro core
    simp [initApp, hcheck]
  · intro dbType
    simp [createDriver, hcheck]

/-- Environment whose DB host is still the template placeholder. -/
def envPlaceholder : Env :=
  { vars := fun c =>
      if c == "CUBEJS_DB_HOST" then some "<YOUR_DB_HOST>" else none,
    machineId := "machine" }

/-- Witness for C6 at the concrete environment `envPlaceholder`. -/
theorem placeholder_check_raises_witness :
    checkEnvForPlaceholders envPlaceholder =
      Except.error CoreError.placeholderError ∧
    (∀ core : ResolvedCore,
      initApp envPlaceholder core = Except.error CoreError.placeholderError) ∧
    (∀ dbType : Option String,
      createDriver envPlaceholder dbType =
        Except.error CoreError.placeholderError) :=
  placeholder_check_raises envPlaceholder "CUBEJS_DB_HOST" "<YOUR_DB_HOST>"
    (by decide) rfl (by decide)

/-- Helper for C10: a type tag that is neither an own key of the table
nor an inherited `Object.prototype` member name — or an absent tag —
selects the JDBC dependency. -/
theorem driverDependencies_of_unknown (t : Option String)
    (h : ∀ s, t = some s → s ∉ knownDbTypes ∧ s ∉ objectProtoKeys) :
    driverDependencies t =
      DriverDependency.module "@cubejs-backend/jdbc-driver" := by
  cases t with
  | none => rfl
  | some s =>
    obtain ⟨hk, hp⟩ := h s rfl
    simp [knownDbTypes, DriverDependencies] at hk
    obtain ⟨h1, h2, h3, h4, h5⟩ := hk
    have e1 : (s == "postgres") = false := beq_eq_false_iff_ne.mpr h1
    have e2 : (s == "mysql") = false := beq_eq_false_iff_ne.mpr h2
    have e3 : (s == "athena") = false := beq_eq_false_iff_ne.mpr h3
    have e4 : (s == "jdbc") = false := beq_eq_false_iff_ne.mpr h4
    have e5 : (s == "mongobi") = false := beq_eq_false_iff_ne.mpr h5
    simp [driverDependencies, driverDependenciesLookup, DriverDependencies,
      List.lookup, e1, e2, e3, e4, e5, hp]

/-- Counterexample for C10: `constructor` is not one of the known tags,
yet `DriverDependencies['constructor']` hits the inherited (truthy)
`Object.prototype.constructor`, so `DriverDependencies[dbType] ||
DriverDependencies.jdbc` yields that inherited member, not the JDBC
dependency, and default driver creation then fails inside `require`
instead of silently falling back. -/
theorem driverDependencies_proto_member_not_jdbc :
    "constructor" ∉ knownDbTypes ∧
    driverDependencies (some "constructor") =
      DriverDependency.protoMember "constructor" ∧
    driverDependencies (some "constructor") ≠
      DriverDependency.module "@cubejs-backend/jdbc-driver" ∧
    createDriver envEmpty (some "constructor") =
      Except.error (CoreError.other "require cannot load constructor") := by
  refine ⟨by decide, by decide, by decide, ?_⟩
  rfl

/-- Claim C10 (amended): for every backing-store type that is neither one
of the known tags nor the name of an inherited `Object.prototype` member
— including an absent type — `driverDependencies` yields the JDBC driver
dependency, and `createDriver` therefore silently constructs the JDBC
driver instead of failing on the unrecognized type. -/
theorem driverDependencies_unknown_falls_back_to_jdbc :
    (∀ dbType : Option String,
      (∀ s, dbType = some s → s ∉ knownDbTypes ∧ s ∉ objectProtoKeys) →
      driverDependencies dbType =
        DriverDependency.module "@cubejs-backend/jdbc-driver") ∧
    (∀ (env : Env) (dbType : Option String),
      checkEnvForPlaceholders env = Except.ok () →
      (∀ s, jsOrStr dbType (env.vars "CUBEJS_DB_TYPE") = some s →
        s ∉ knownDbTypes ∧ s ∉ objectProtoKeys) →
      createDriver env dbType = Except.ok "@cubejs-backend/jdbc-driver") := by
  refine ⟨fun dbType h => driverDependencies_of_unknown dbType h, ?_⟩
  intro env dbType hcheck h
  simp [createDriver, hcheck, driverDependencies_of_unknown _ h]

/-- Witness for C10: the unrecognized tag `oracle` (with an empty
environment) selects the JDBC driver. -/
theorem driverDependencies_unknown_falls_back_to_jdbc_witness :
    driverDependencies (some "oracle") =
      DriverDependency.module "@cubejs-backend/jdbc-driver" ∧
    createDriver envEmpty (some "oracle") =
      Except.ok "@cubejs-backend/jdbc-driver" := by
  refine ⟨driverDependencies_unknown_falls_back_to_jdbc.1 (some "oracle") ?_,
    driverDependencies_unknown_falls_back_to_jdbc.2 envEmpty (some "oracle")
      rfl ?_⟩
  · intro s hs
    injection hs with hs
    subst hs
    exact ⟨by decide, by decide⟩
  · intro s hs
    injection hs with hs
    subst hs
    exact ⟨by decide, by decide⟩

/-! ## TelemetryEmitter: `this.event` (index.js lines 66–77)

```js
this.event = async (name, props) => {
  try {
    await promisify(client.track.bind(client))({ event: name, anonymousId, properties: props });
    await promisify(client.flush.bind(client))();
  } catch (e) {
    // console.error(e);
  }
};
```
-/

/-- Outcomes of the external analytics sink for one `this.event` call:
the awaited `track` delivery and the awaited `flush`. -/
structure SinkOutcome where
  track : Except CoreError Unit
  flush : Except CoreError Unit

/-- `this.event(name, props)`: await the delivery, then the flush; the
`catch` block discards any failure of either step, so the returned
promise always resolves. -/
def eventEmit (o : SinkOutcome) : Except CoreError Unit :=
  match Except.bind o.track (fun _ => o.flush) with
  | Except.error _ => Except.ok ()
  | Except.ok _ => Except.ok ()

/-! ## DevServerExtensions: context and generate-schema endpoints -/

/-- A JWT produced by `jwt.sign({}, secret, { expiresIn: '1d' })`:
payload `{}` signed with `secret`, expiring a fixed number of seconds
(`'1d'` = 86400) after the issuing instant. -/
structure SignedToken where
  secret : String
  issuedAt : Nat
  expiresInSeconds : Nat
deriving DecidableEq, Repr

def jwtSign (secret : String) (now : Nat) : SignedToken :=
  { secret := secret, issuedAt := now, expiresInSeconds := 86400 }

/-- A JSON value appearing in a dev-endpoint response. -/
inductive JsonVal
  | str (s : String)
  | tok (t : SignedToken)
deriving DecidableEq, Repr

/-- `process.env.PORT || 4000` (index.js line 140). -/
def portOf (env : Env) : String :=
  match env.vars "PORT" with
  | some p => if p == "" then "4000" else p
  | none => "4000"

/-- `process.env.CUBEJS_API_URL || http://localhost:PORT`
(index.js line 141). -/
def apiUrlOf (env : Env) : String :=
  match env.vars "CUBEJS_API_URL" with
  | some u => if u == "" then "http://localhost:" ++ portOf env else u
  | none => "http://localhost:" ++ portOf env

/-- The `GET /playground/context` handler (index.js lines 147–154): fire
the `Dev Server Env Open` telemetry event without awaiting it, then
respond with a freshly signed token, the API URL and the anonymous id.
The first component is the fired event's settled outcome — were it an
error, it would escape the handler as an unhandled rejection, since the
handler never awaits it. -/
def contextHandler (env : Env) (apiSecret anonymousId : String) (now : Nat)
    (sink : SinkOutcome) :
    Except CoreError Unit × List (String × JsonVal) :=
  (eventEmit sink,
   [("cubejsToken", JsonVal.tok (jwtSign apiSecret now)),
    ("apiUrl", JsonVal.str (apiUrlOf env)),
    ("anonymousId", JsonVal.str anonymousId)])

/-- One generated schema-definition file descriptor. -/
structure SchemaFile where
  fileName : String
  content : String
deriving DecidableEq, Repr

/-- The driver's introspected schema (result of `driver.tablesSchema()`),
abstracted to what the scaffolding template consumes: a description per
table name. -/
structure TablesSchema where
  describe : String → String

/-- Modelled from the spec: `ScaffoldingTemplate.generateFilesByTableNames`
lives in the external `@cubejs-backend/schema-compiler` package, which is
not part of this repository; per the spec it generates one file (name
plus content) per requested table from the introspected schema. -/
def generateFilesByTableNames (schema : TablesSchema) (tables : List String) :
    List SchemaFile :=
  tables.map fun t => { fileName := t ++ ".js", content := schema.describe t }

/-- `path.join(dir, file)`. -/
def pathJoin (dir file : String) : String := dir ++ "/" ++ file

/-- Observable effects of a dev endpoint, in issue order. -/
inductive DevEffect
  | telemetry (name : String)
  | writeFile (path : String) (content : String)
deriving DecidableEq, Repr

/-- Result of one `POST /playground/generate-schema` request. -/
structure GenerateSchemaResult where
  eventOutcome : Except CoreError Unit
  trace : List DevEffect
  disk : List (String × String)
  response : Option (List SchemaFile)

/-- The `POST /playground/generate-schema` handler (index.js lines
169–179): fire the telemetry event first, obtain the driver's schema,
generate one file per requested table, then write every file
independently (`Promise.all` over `fs.writeFile`) to
`path.join('schema', file.fileName)`.  `writeOk` says which individual
writes succeed; every successful write stays on disk whether or not the
others fail (no rollback), and the `{ files }` response is sent only when
all writes succeeded. -/
def generateSchemaHandler (schema : TablesSchema) (tables : List String)
    (writeOk : String → Bool) (sink : SinkOutcome) : GenerateSchemaResult :=
  let files := generateFilesByTableNames schema tables
  { eventOutcome := eventEmit sink,
    trace := DevEffect.telemetry "Dev Server Generate Schema" ::
      files.map (fun f =>
        DevEffect.writeFile (pathJoin "schema" f.fileName) f.content),
    disk := (files.filter
        (fun f => writeOk (pathJoin "schema" f.fileName))).map
      (fun f => (pathJoin "schema" f.fileName, f.content)),
    response :=
      if files.all (fun f => writeOk (pathJoin "schema" f.fileName)) then
        some files
      else none }

/-- Claim C7: the scaffolding collaborator yields one file descriptor per
requested table; the handler's telemetry event is issued before any
write; each file is written under `schema/<its reported name>`; and every
file whose own write succeeds is on disk afterwards, regardless of other
writes failing (no rollback). -/
theorem generateSchema_one_file_per_table (schema : TablesSchema)
    (tables : List String) (writeOk : String → Bool) (sink : SinkOutcome) :
    (generateFilesByTableNames schema tables).length = tables.length ∧
    (generateSchemaHandler schema tables writeOk sink).trace =
      DevEffect.telemetry "Dev Server Generate Schema" ::
        (generateFilesByTableNames schema tables).map (fun f =>
          DevEffect.writeFile (pathJoin "schema" f.fileName) f.content) ∧
    (∀ f ∈ generateFilesByTableNames schema tables,
      writeOk (pathJoin "schema" f.fileName) = true →
      (pathJoin "schema" f.fileName, f.content) ∈
        (generateSchemaHandler schema tables writeOk sink).disk) := by
  refine ⟨List.length_map _ _, rfl, ?_⟩
  intro f hf hw
  exact List.mem_map_of_mem _ (List.mem_filter.mpr ⟨hf, hw⟩)

/-- Concrete schema and write oracle for the C7 witness: writing
`schema/users.js` fails, writing `schema/orders.js` succeeds. -/
def schemaW : TablesSchema := { describe := fun t => "cube:" ++ t }

def writeOkW : String → Bool := fun p => p != "schema/users.js"

def sinkOk : SinkOutcome := { track := Except.ok (), flush := Except.ok () }

/-- Witness for C7: two tables give two files, and after the failing run
the successfully written first file is on disk. -/
theorem generateSchema_one_file_per_table_witness :
    (generateFilesByTableNames schemaW ["orders", "users"]).length =
      ["orders", "users"].length ∧
    writeOkW (pathJoin "schema" "users.js") = false ∧
    ("schema/orders.js", "cube:orders") ∈
      (generateSchemaHandler schemaW ["orders", "users"] writeOkW
        sinkOk).disk :=
  ⟨(generateSchema_one_file_per_table schemaW ["orders", "users"] writeOkW
      sinkOk).1,
   by decide,
   (generateSchema_one_file_per_table schemaW ["orders", "users"] writeOkW
      sinkOk).2.2 { fileName := "orders.js", content := "cube:orders" }
     (by decide) (by decide)⟩

/-- Counterexample for C8: at a concrete request, the context response
has no field named `token` — the token field is named `cubejsToken` — so
the claim that the response's fields are `token`, `apiUrl` and
`anonymousId` is false. -/
theorem contextHandler_no_field_named_token :
    ((contextHandler envEmpty "secret" "anon" 0 sinkOk).2.lookup "token" =
      none) ∧
    (contextHandler envEmpty "secret" "anon" 0 sinkOk).2.lookup
      "cubejsToken" =
      some (JsonVal.tok
        { secret := "secret", issuedAt := 0, expiresInSeconds := 86400 }) := by
  constructor <;> rfl

/-- Claim C8 (amended): the context response is exactly the object with
fields `cubejsToken` — a token freshly signed with the configured API
secret at the request instant, with the fixed 24-hour (86400 s) expiry —
`apiUrl` — the externally reachable API URL — and `anonymousId` — the
process's anonymous telemetry id. -/
theorem contextHandler_fields (env : Env) (apiSecret anonymousId : String)
    (now : Nat) (sink : SinkOutcome) :
    (contextHandler env apiSecret anonymousId now sink).2 =
      [("cubejsToken", JsonVal.tok
          { secret := apiSecret, issuedAt := now,
            expiresInSeconds := 86400 }),
       ("apiUrl", JsonVal.str (apiUrlOf env)),
       ("anonymousId", JsonVal.str anonymousId)] := rfl

/-- Claim C9: `this.event` always resolves — sink failures at the
delivery or flush step are caught and discarded — and for the endpoints
that fire telemetry, neither the fired event's settled outcome nor the
endpoint's response ever varies with, or surfaces, a sink failure. -/
theorem eventEmit_never_fails :
    (∀ o : SinkOutcome, eventEmit o = Except.ok ()) ∧
    (∀ (env : Env) (apiSecret anonymousId : String) (now : Nat)
       (o o2 : SinkOutcome),
      (contextHandler env apiSecret anonymousId now o).1 = Except.ok () ∧
      (contextHandler env apiSecret anonymousId now o).2 =
        (contextHandler env apiSecret anonymousId now o2).2) ∧
    (∀ (schema : TablesSchema) (tables : List String)
       (writeOk : String → Bool) (o o2 : SinkOutcome),
      (generateSchemaHandler schema tables writeOk o).eventOutcome =
        Except.ok () ∧
      (generateSchemaHandler schema tables writeOk o).response =
        (generateSchemaHandler schema tables writeOk o2).response) := by
  have hok : ∀ o : SinkOutcome, eventEmit o = Except.ok () := by
    intro o
    cases ht : o.track with
    | error e => simp [eventEmit, Except.bind, ht]
    | ok _ =>
      cases hf : o.flush with
      | error e => simp [eventEmit, Except.bind, ht, hf]
      | ok _ => simp [eventEmit, Except.bind, ht, hf]
  refine ⟨hok, ?_, ?_⟩
  · intro env apiSecret anonymousId now o o2
    exact ⟨hok o, rfl⟩
  · intro schema tables writeOk o o2
    exact ⟨hok o, rfl⟩

end CubeCore
